import Mathlib

/-!
Verification of the asynchronous external-process supervisor and the
multi-location resource locator of `src/tauri/src/main.rs`
(LocalDashboard).  The Rust functions `find_python`,
`resolve_script_path` and `trigger_workspace_snap` are shallowly
embedded as pure Lean functions over explicit environments describing
the operating-system facts they consult (filesystem existence,
launchability of an executable, the behaviour of a spawned child).
-/

namespace LocalDashboard

/-! ## String containment

Several claims say an error message "includes" some text.  We use plain
string decomposition: `needle` occurs in `hay` iff `hay` splits as
`pre ++ needle ++ post`. -/

/-- `containsStr hay needle` holds when `needle` occurs contiguously in `hay`. -/
def containsStr (hay needle : String) : Prop :=
  ∃ pre post, hay = pre ++ needle ++ post

theorem containsStr_append_right (pre needle : String) :
    containsStr (pre ++ needle) needle :=
  ⟨pre, "", by rw [String.append_empty]⟩

theorem containsStr_append_middle (pre needle post : String) :
    containsStr (pre ++ needle ++ post) needle :=
  ⟨pre, post, rfl⟩

theorem containsStr_iff_data (hay needle : String) :
    containsStr hay needle ↔ needle.data <:+: hay.data := by
  constructor
  · rintro ⟨pre, post, rfl⟩
    exact ⟨pre.data, post.data, by simp⟩
  · rintro ⟨s, t, h⟩
    refine ⟨⟨s⟩, ⟨t⟩, String.ext ?_⟩
    simpa using h.symm

/-! ## Interpreter discovery (`find_python`, main.rs lines 27-48)

`Command::new(candidate).arg("--version").stdout(null).stderr(null).status()`
either fails to launch (the OS could not execute the candidate: `Err`)
or reports an exit code.  The environment records that outcome for each
candidate name; `none` models a launch error, `some code` models a
completed run with the given exit code. -/

/-- Outcome of `Command::new(c).arg("--version").status()` for each candidate
name: `none` = launch error (`Err`), `some code` = the OS ran it (`Ok`). -/
structure PyEnv where
  launch : String → Option Int

/-- The platform-dependent candidate lists of main.rs lines 29-35. -/
def pythonCandidates (windows : Bool) : List String :=
  if windows then ["py.exe", "python.exe", "python3.exe"]
  else ["python3", "python"]

/-- The candidate loop of main.rs lines 38-43: take the first candidate whose
version-check invocation launched (`status().is_ok()`); the exit code is
never examined. -/
def find_python_go (env : PyEnv) : List String → String
  | [] => "python"
  | c :: cs => if (env.launch c).isSome then c else find_python_go env cs

/-- `find_python` (main.rs lines 27-48): first launchable candidate, else the
fixed fallback name `"python"` (line 47). -/
def find_python (env : PyEnv) (windows : Bool) : String :=
  find_python_go env (pythonCandidates windows)

/-! ## Script-path resolution (`resolve_script_path`, main.rs lines 51-95) -/

/-- The operating-system facts `resolve_script_path` consults:
`resourceResolve` is the outcome of
`app_handle.path().resolve(name, BaseDirectory::Resource)`;
`exeDir` is the directory of the running executable when
`std::env::current_exe()` succeeds and `.parent()` is `Some`, and `none`
when either step fails; `fsExists` is the filesystem existence test
`Path::exists`. -/
structure ResolveEnv where
  resourceResolve : Except String String
  exeDir : Option String
  fsExists : String → Bool

/-- `PathBuf::join` for the relative script name used here. -/
def joinPath (dir name : String) : String := dir ++ "/" ++ name

/-- The not-found error of main.rs line 94.  The message is a constant
format: it always names the same three locations. -/
def notFoundMessage (scriptName : String) : String :=
  "Script '" ++ scriptName ++
    "' not found. Checked Resource dir, alongside executable, and CWD."

/-- The three locations enumerated by `notFoundMessage`, in the order the
message names them.  The format string of line 94 is constant, so this
list is the same for every call. -/
def notFoundCheckedLocations : List String :=
  ["Resource dir", "alongside executable", "CWD"]

/-- `resolve_script_path` (main.rs lines 51-95): check the Tauri resource
directory, then the executable's directory, then the current working
directory; return the first existing path, else the constant not-found
error. -/
def resolve_script_path (env : ResolveEnv) (scriptName : String) :
    Except String String :=
  let step3 : Except String String :=
    if env.fsExists scriptName then Except.ok scriptName
    else Except.error (notFoundMessage scriptName)
  let step2 : Except String String :=
    match env.exeDir with
    | some d =>
        if env.fsExists (joinPath d scriptName) then
          Except.ok (joinPath d scriptName)
        else step3
    | none => step3
  match env.resourceResolve with
  | Except.ok p => if env.fsExists p then Except.ok p else step2
  | Except.error _ => step2

/-- Location 1 hit: the resource-directory resolution succeeded and the
resolved path exists. -/
def resourceHit (env : ResolveEnv) : Option String :=
  match env.resourceResolve with
  | Except.ok p => if env.fsExists p then some p else none
  | Except.error _ => none

/-- Location 2 hit: the executable directory is known and the joined path
exists. -/
def exeHit (env : ResolveEnv) (scriptName : String) : Option String :=
  match env.exeDir with
  | some d =>
      if env.fsExists (joinPath d scriptName) then
        some (joinPath d scriptName)
      else none
  | none => none

/-- Location 3 hit: the script name, taken relative to the current working
directory, exists. -/
def cwdHit (env : ResolveEnv) (scriptName : String) : Option String :=
  if env.fsExists scriptName then some scriptName else none

/-- C1: whenever the resource exists in at least one of the three search
locations, `resolve_script_path` returns `Ok` with the path of the first
location, in the order resource directory / alongside executable / CWD,
at which it exists; in particular a hit in a single location is returned
whichever location it is. -/
theorem resolve_script_path_first_existing (env : ResolveEnv)
    (scriptName : String) :
    (∀ p, resourceHit env = some p →
      resolve_script_path env scriptName = Except.ok p) ∧
    (∀ p, resourceHit env = none → exeHit env scriptName = some p →
      resolve_script_path env scriptName = Except.ok p) ∧
    (∀ p, resourceHit env = none → exeHit env scriptName = none →
      cwdHit env scriptName = some p →
      resolve_script_path env scriptName = Except.ok p) := by
  unfold resolve_script_path resourceHit exeHit cwdHit
  refine ⟨?_, ?_, ?_⟩ <;> intro p
  · intro h1
    cases hres : env.resourceResolve with
    | ok q =>
        rw [hres] at h1
        by_cases hq : env.fsExists q
        · simp [hq] at h1 ⊢; exact h1
        · simp [hq] at h1
    | error e => rw [hres] at h1; simp at h1
  · intro h1 h2
    cases hres : env.resourceResolve with
    | ok q =>
        rw [hres] at h1
        by_cases hq : env.fsExists q
        · simp [hq] at h1
        · simp [hq]
          cases hexe : env.exeDir with
          | some d =>
              rw [hexe] at h2
              by_cases hd : env.fsExists (joinPath d scriptName)
              · simp [hd] at h2 ⊢; exact h2
              · simp [hd] at h2
          | none => rw [hexe] at h2; simp at h2
    | error e =>
        simp
        cases hexe : env.exeDir with
        | some d =>
            rw [hexe] at h2
            by_cases hd : env.fsExists (joinPath d scriptName)
            · simp [hd] at h2 ⊢; exact h2
            · simp [hd] at h2
        | none => rw [hexe] at h2; simp at h2
  · intro h1 h2 h3
    by_cases hcwd : env.fsExists scriptName
    · simp [hcwd] at h3
      subst h3
      cases hres : env.resourceResolve with
      | ok q =>
          rw [hres] at h1
          by_cases hq : env.fsExists q
          · simp [hq] at h1
          · simp [hq]
            cases hexe : env.exeDir with
            | some d =>
                rw [hexe] at h2
                by_cases hd : env.fsExists (joinPath d scriptName)
                · simp [hd] at h2
                · simp [hd, hcwd]
            | none => simp [hcwd]
      | error e =>
          simp
          cases hexe : env.exeDir with
          | some d =>
              rw [hexe] at h2
              by_cases hd : env.fsExists (joinPath d scriptName)
              · simp [hd] at h2
              · simp [hd, hcwd]
          | none => simp [hcwd]
    · simp [hcwd] at h3

/-- Environment for the C1 witness: the resource directory cannot be
resolved, the executable path is unknown, and only the CWD copy of the
script exists. -/
def c1Env : ResolveEnv :=
  { resourceResolve := Except.error "resource dir unavailable"
    exeDir := none
    fsExists := fun s => s == "agent.py" }

theorem resolve_script_path_first_existing_witness :
    resolve_script_path c1Env "agent.py" = Except.ok "agent.py" :=
  (resolve_script_path_first_existing c1Env "agent.py").2.2 "agent.py"
    (by decide) (by decide) (by decide)

/-- C5 (amended): when the resource exists in none of the locations,
`resolve_script_path` fails with the constant not-found message, whose
checked-location enumeration always has exactly three entries — the same
three fixed names, whether or not every location could be determined —
and no entry is marked "unknown". -/
theorem resolve_script_path_notfound_three_fixed (env : ResolveEnv)
    (scriptName : String)
    (h1 : resourceHit env = none) (h2 : exeHit env scriptName = none)
    (h3 : cwdHit env scriptName = none) :
    resolve_script_path env scriptName =
      Except.error (notFoundMessage scriptName) ∧
    notFoundCheckedLocations.length = 3 ∧
    ∀ l ∈ notFoundCheckedLocations, ¬ containsStr l "unknown" := by
  refine ⟨?_, rfl, ?_⟩
  · unfold resolve_script_path
    unfold resourceHit at h1
    unfold exeHit at h2
    unfold cwdHit at h3
    by_cases hcwd : env.fsExists scriptName
    · simp [hcwd] at h3
    · cases hres : env.resourceResolve with
      | ok q =>
          rw [hres] at h1
          by_cases hq : env.fsExists q
          · simp [hq] at h1
          · simp [hq]
            cases hexe : env.exeDir with
            | some d =>
                rw [hexe] at h2
                by_cases hd : env.fsExists (joinPath d scriptName)
                · simp [hd] at h2
                · simp [hd, hcwd]
            | none => simp [hcwd]
      | error e =>
          simp
          cases hexe : env.exeDir with
          | some d =>
              rw [hexe] at h2
              by_cases hd : env.fsExists (joinPath d scriptName)
              · simp [hd] at h2
              · simp [hd, hcwd]
          | none => simp [hcwd]
  · intro l hl hcontains
    rw [containsStr_iff_data] at hcontains
    fin_cases hl <;> revert hcontains <;> decide

/-- Environment for the C5 counterexample and witness: nothing exists and
the executable directory could not be determined. -/
def c5Env : ResolveEnv :=
  { resourceResolve := Except.error "resource dir unavailable"
    exeDir := none
    fsExists := fun _ => false }

/-- C5 counterexample: with the executable location undeterminable
(`exeDir = none`, so that location 2 was never actually checked), the
failure message still enumerates exactly the three fixed locations —
not fewer entries — and no entry is marked "unknown", contrary to the
claim's "fewer entries each marked unknown when a location could not be
determined"; the never-checked location 2 is nevertheless listed. -/
theorem resolve_script_path_unknown_counterexample :
    c5Env.exeDir = none ∧
    resolve_script_path c5Env "workspace_snap_agent.py" =
      Except.error (notFoundMessage "workspace_snap_agent.py") ∧
    "alongside executable" ∈ notFoundCheckedLocations ∧
    ¬ (notFoundCheckedLocations.length < 3 ∧
        ∀ l ∈ notFoundCheckedLocations, containsStr l "unknown") := by
  refine ⟨rfl, rfl, by decide, ?_⟩
  rintro ⟨hlen, -⟩
  simp [notFoundCheckedLocations] at hlen

theorem resolve_script_path_notfound_three_fixed_witness :
    resolve_script_path c5Env "a.py" = Except.error (notFoundMessage "a.py") ∧
    notFoundCheckedLocations.length = 3 :=
  ⟨(resolve_script_path_notfound_three_fixed c5Env "a.py"
      (by decide) (by decide) (by decide)).1,
   (resolve_script_path_notfound_three_fixed c5Env "a.py"
      (by decide) (by decide) (by decide)).2.1⟩

/-- C6: `find_python` returns the first candidate of the platform's ordered
list whose version-check invocation launched, and the fixed fallback name
`"python"` when every candidate fails to launch; moreover the choice
depends only on launchability, never on the reported exit code. -/
theorem find_python_first_launchable (env : PyEnv) (windows : Bool) :
    find_python env windows =
      ((pythonCandidates windows).find?
        (fun c => (env.launch c).isSome)).getD "python" ∧
    ((∀ c ∈ pythonCandidates windows, env.launch c = none) →
      find_python env windows = "python") ∧
    (∀ env' : PyEnv,
      (∀ c, (env'.launch c).isSome = (env.launch c).isSome) →
      find_python env' windows = find_python env windows) := by
  have hgo : ∀ (l : List String),
      find_python_go env l = (l.find? (fun c => (env.launch c).isSome)).getD "python" := by
    intro l
    induction l with
    | nil => rfl
    | cons c cs ih =>
        by_cases hc : (env.launch c).isSome
        · simp [find_python_go, hc, List.find?]
        · simp at hc
          simp [find_python_go, hc, List.find?]
          exact ih
  refine ⟨hgo _, ?_, ?_⟩
  · intro hall
    rw [find_python, hgo]
    have : (pythonCandidates windows).find? (fun c => (env.launch c).isSome) = none := by
      rw [List.find?_eq_none]
      intro c hc
      simp [hall c hc]
    rw [this]
    rfl
  · intro env' hsame
    unfold find_python
    generalize pythonCandidates windows = l
    induction l with
    | nil => rfl
    | cons c cs ih =>
        simp [find_python_go, hsame c]
        by_cases hc : (env.launch c).isSome <;> simp [hc, ih]

/-- Environment for the C6 witness: only `"python"` (second Unix candidate)
launches, with exit code 0. -/
def c6Env : PyEnv :=
  { launch := fun c => if c == "python" then some 0 else none }

theorem find_python_first_launchable_witness :
    (∀ c ∈ pythonCandidates true, c6Env.launch c = none) ∧
    find_python c6Env true = "python" :=
  ⟨by decide,
   (find_python_first_launchable c6Env true).2.1 (by decide)⟩

/-! ## The supervised process (`trigger_workspace_snap`, main.rs lines 101-221)

The tokio `Command` is embedded as a record of program, argument list and
the two stream configurations; `.arg` appends, `.stdout`/`.stderr` set
the configurations, exactly mirroring lines 118-131. -/

/-- `Stdio` configuration of a child stream (`Stdio::piped()` et al.). -/
inductive StdioCfg where
  | inherit
  | piped
deriving DecidableEq

/-- Embedding of `tokio::process::Command` as built by the source. -/
structure Cmd where
  exe : String
  args : List String
  stdoutCfg : StdioCfg
  stderrCfg : StdioCfg
deriving DecidableEq

/-- `Command::new` (both streams default to inherit). -/
def Cmd.new (exe : String) : Cmd :=
  { exe := exe, args := [], stdoutCfg := StdioCfg.inherit,
    stderrCfg := StdioCfg.inherit }

/-- `cmd.arg(a)` appends one argument. -/
def Cmd.arg (c : Cmd) (a : String) : Cmd := { c with args := c.args ++ [a] }

/-- `cmd.stdout(cfg)`. -/
def Cmd.stdout (c : Cmd) (cfg : StdioCfg) : Cmd := { c with stdoutCfg := cfg }

/-- `cmd.stderr(cfg)`. -/
def Cmd.stderr (c : Cmd) (cfg : StdioCfg) : Cmd := { c with stderrCfg := cfg }

/-- The full command line: program followed by its arguments. -/
def Cmd.cmdline (c : Cmd) : List String := c.exe :: c.args

/-- Models the `{:?}` (Debug) rendering of the command used in log and
error messages (`command_str`, line 136): the program and arguments,
space-separated.  The exact quoting of the Rust Debug output is
abstracted; every claim only needs that the rendering carries the full
command line. -/
def Cmd.debugStr (c : Cmd) : String := String.intercalate " " c.cmdline

/-- The command built by `trigger_workspace_snap`, main.rs lines 118-131:
script path, `--config <config_path>`, optionally
`--project-path <p>`, and both streams piped. -/
def buildSnapCmd (pythonExecutable scriptPath configPath : String)
    (projectPath : Option String) : Cmd :=
  let cmd := Cmd.new pythonExecutable
  let cmd := cmd.arg scriptPath
  let cmd := cmd.arg "--config"
  let cmd := cmd.arg configPath
  let cmd := match projectPath with
    | some p => (cmd.arg "--project-path").arg p
    | none => cmd
  let cmd := cmd.stdout StdioCfg.piped
  cmd.stderr StdioCfg.piped

/-- One `next_line()` step of a buffered stream reader: either a line
(`Ok(Some(line))`) or a read error (`Err`); end of the list models
end-of-stream (`Ok(None)`). -/
inductive ReadItem where
  | line (text : String)
  | readErr (msg : String)
deriving DecidableEq

/-- `std::process::ExitStatus` as used by the source: only `.success()`
and the `Display` rendering are consulted. -/
structure ExitStatus where
  success : Bool
  display : String
deriving DecidableEq

/-- What the spawned child will do: its pid (`child.id()`, optional), the
two raw stream contents, and the outcome of `child.wait().await`. -/
structure ChildBehavior where
  pid : Option Nat
  stdoutStream : List ReadItem
  stderrStream : List ReadItem
  waitResult : Except String ExitStatus

/-- Environment for one spawn attempt: `spawnError = some e` models
`cmd.spawn()` returning `Err(e)`; otherwise the child behaves as
`child` describes. -/
structure SpawnEnv where
  spawnError : Option String
  child : ChildBehavior

/-- A spawned child: pid plus the two optional stream handles (present
exactly when the corresponding stream was configured as piped — the
contract of `Stdio::piped()`), and the termination outcome. -/
structure Child where
  pid : Option Nat
  stdout : Option (List ReadItem)
  stderr : Option (List ReadItem)
  waitResult : Except String ExitStatus

/-- `cmd.spawn()`: fails iff the environment says so; on success the
stream handles are `Some` exactly for the piped configurations. -/
def Cmd.spawn (c : Cmd) (env : SpawnEnv) : Except String Child :=
  match env.spawnError with
  | some e => Except.error e
  | none =>
      Except.ok
        { pid := env.child.pid
          stdout := if c.stdoutCfg = StdioCfg.piped then
              some env.child.stdoutStream else none
          stderr := if c.stderrCfg = StdioCfg.piped then
              some env.child.stderrStream else none
          waitResult := env.child.waitResult }

/-- `child.stdout.take().expect(msg)` (lines 152-153): the error case
models the panic branch. -/
def takeExpect (h : Option (List ReadItem)) (msg : String) :
    Except String (List ReadItem) :=
  match h with
  | some s => Except.ok s
  | none => Except.error msg

/-- The lines actually processed by the loop
`while let Ok(Some(line)) = lines.next_line().await` (lines 164, 176):
it consumes lines until end-of-stream or the first read error, and
stops silently in either case. -/
def readerOutputs : List ReadItem → List String
  | [] => []
  | ReadItem.line s :: rest => s :: readerOutputs rest
  | ReadItem.readErr _ :: _ => []

/-- A lifecycle notification emitted to the frontend sink
(`app_handle.emit(...)`). -/
inductive Event where
  | started (payload : String)
  | stderrLine (text : String)
  | success (msg : String)
  | error (msg : String)
deriving DecidableEq

/-- `Event` classifiers. -/
def isStartedEv : Event → Bool
  | Event.started _ => true
  | _ => false

def isStderrLineEv : Event → Bool
  | Event.stderrLine _ => true
  | _ => false

def isSuccessEv : Event → Bool
  | Event.success _ => true
  | _ => false

def isErrorEv : Event → Bool
  | Event.error _ => true
  | _ => false

/-- A terminal (`Completed`-class) notification: `workspace-snap-success`
or `workspace-snap-error`. -/
def isTerminalEv (e : Event) : Bool := isSuccessEv e || isErrorEv e

/-- The stdout reader task (lines 161-169): each processed line is only
printed locally (the emit is commented out in the source).  Result:
(locally logged lines, events emitted to the sink). -/
def stdoutTask (stream : List ReadItem) : List String × List Event :=
  (readerOutputs stream, [])

/-- The stderr reader task (lines 173-182): each processed line is logged
and emitted as a `workspace-snap-stderr` notification. -/
def stderrTask (stream : List ReadItem) : List String × List Event :=
  (readerOutputs stream, (readerOutputs stream).map Event.stderrLine)

/-- `child.id().map(to_string).unwrap_or("N/A")` (line 141). -/
def pidString (pid : Option Nat) : String :=
  match pid with
  | some n => toString n
  | none => "N/A"

/-- The exit-waiter task (lines 187-207): exactly one terminal
notification, chosen by the outcome of `child.wait().await`. -/
def waitTask (w : Except String ExitStatus) (commandStr : String) :
    List Event :=
  match w with
  | Except.ok status =>
      if status.success then
        [Event.success ("Agent exited successfully (Status: " ++
          status.display ++ ")")]
      else
        [Event.error ("Agent exited with non-zero status: " ++
          status.display)]
  | Except.error e =>
      [Event.error ("Failed to wait for Workspace Snap Agent process (" ++
        commandStr ++ "): " ++ e)]

/-- Helper for `interleavings` giving a structural (kernel-computable)
recursion: `f` is the merge function for the tail of the first
sequence. -/
def interleavingsAux (x : α) (xs : List α)
    (f : List α → List (List α)) : List α → List (List α)
  | [] => [x :: xs]
  | y :: ys =>
      (f (y :: ys)).map (fun t => x :: t) ++
      (interleavingsAux x xs f ys).map (fun t => y :: t)

/-- All interleavings of two sequences: the runtime schedules the
concurrently spawned tasks with no ordering guarantee between them, so
the sink may observe any merge that preserves each task's own order. -/
def interleavings : List α → List α → List (List α)
  | [], ys => [ys]
  | x :: xs, ys => interleavingsAux x xs (interleavings xs) ys

theorem interleavings_nil (ys : List α) : interleavings [] ys = [ys] := rfl

theorem interleavings_cons_nil (x : α) (xs : List α) :
    interleavings (x :: xs) [] = [x :: xs] := rfl

theorem interleavings_cons_cons (x y : α) (xs ys : List α) :
    interleavings (x :: xs) (y :: ys) =
      (interleavings xs (y :: ys)).map (fun t => x :: t) ++
      (interleavings (x :: xs) ys).map (fun t => y :: t) := rfl

/-- `trigger_workspace_snap` (lines 101-221), given the resolved python
executable and script path: build the command, spawn it, emit
`workspace-snap-started`, and run the three concurrent tasks.  Returns
the synchronous result together with the set of event sequences the
sink may observe (the started notification is emitted synchronously
before the tasks are spawned; the stderr reader's and the waiter's
emissions interleave arbitrarily; the stdout reader emits nothing).
On spawn failure the synchronous result is the error including the
command line and the only observable event sequence is empty.
The handle extraction uses the piped-configuration default; theorem
`snap_piped_handles_always_some` shows the `expect` panic branches of
lines 152-153 are unreachable for this command. -/
def superviseSnap (cmd : Cmd) (env : SpawnEnv) :
    Except String Unit × List (List Event) :=
  let commandStr := cmd.debugStr
  match cmd.spawn env with
  | Except.ok child =>
      let startedEv := Event.started ("Agent PID: " ++ pidString child.pid)
      let stderrEvs := (stderrTask (child.stderr.getD [])).2
      let waitEvs := waitTask child.waitResult commandStr
      (Except.ok (),
        (interleavings stderrEvs waitEvs).map (fun t => startedEv :: t))
  | Except.error e =>
      (Except.error ("Failed to spawn Workspace Snap Agent command '" ++
        commandStr ++ "': " ++ e), [[]])

/-- The fixed script name of main.rs line 113. -/
def snapScriptName : String := "workspace_snap_agent.py"

/-- Complete environment of one `trigger_workspace_snap` invocation. -/
structure TriggerEnv where
  pyEnv : PyEnv
  windows : Bool
  resolveEnv : ResolveEnv
  spawnEnv : SpawnEnv

/-- `trigger_workspace_snap` end to end: find the interpreter, resolve the
script (propagating its error via `?`), then spawn and supervise. -/
def trigger_workspace_snap (env : TriggerEnv) (configPath : String)
    (projectPath : Option String) :
    Except String Unit × List (List Event) :=
  let pythonExecutable := find_python env.pyEnv env.windows
  match resolve_script_path env.resolveEnv snapScriptName with
  | Except.error e => (Except.error e, [[]])
  | Except.ok scriptPath =>
      superviseSnap
        (buildSnapCmd pythonExecutable scriptPath configPath projectPath)
        env.spawnEnv

/-- C2: the child command line is exactly the interpreter, the script
path, the pair `--config <config_path>`, and — iff a project path is
supplied — the pair `--project-path <p>`, in that order with nothing
else. -/
theorem snap_cmdline_exact (pythonExecutable scriptPath configPath p :
    String) :
    (buildSnapCmd pythonExecutable scriptPath configPath none).cmdline =
      [pythonExecutable, scriptPath, "--config", configPath] ∧
    (buildSnapCmd pythonExecutable scriptPath configPath (some p)).cmdline =
      [pythonExecutable, scriptPath, "--config", configPath,
        "--project-path", p] := by
  constructor <;> rfl

/-- C9: for the command built by `trigger_workspace_snap` (both streams
piped, lines 130-131), a successful spawn always yields `Some` for both
stream handles, so the `expect` panic branches of lines 152-153 are
unreachable. -/
theorem snap_piped_handles_always_some (pythonExecutable scriptPath
    configPath : String) (projectPath : Option String) (env : SpawnEnv)
    (hspawn : env.spawnError = none) :
    ∃ child,
      (buildSnapCmd pythonExecutable scriptPath configPath
        projectPath).spawn env = Except.ok child ∧
      takeExpect child.stdout
        "Internal error: Failed to capture stdout from spawned process" =
        Except.ok env.child.stdoutStream ∧
      takeExpect child.stderr
        "Internal error: Failed to capture stderr from spawned process" =
        Except.ok env.child.stderrStream := by
  refine ⟨{ pid := env.child.pid, stdout := some env.child.stdoutStream,
            stderr := some env.child.stderrStream,
            waitResult := env.child.waitResult }, ?_, rfl, rfl⟩
  unfold Cmd.spawn
  rw [hspawn]
  cases projectPath <;> rfl

/-- Spawn environment used by the C9 witness: a clean exit with pid 3 and
empty streams. -/
def c9Env : SpawnEnv where
  spawnError := none
  child :=
    { pid := some 3
      stdoutStream := []
      stderrStream := []
      waitResult := Except.ok { success := true, display := "exit status: 0" } }

theorem snap_piped_handles_always_some_witness :
    ∃ child,
      (buildSnapCmd "python3" "workspace_snap_agent.py" "/tmp/layout.json"
        none).spawn c9Env = Except.ok child ∧
      takeExpect child.stdout
        "Internal error: Failed to capture stdout from spawned process" =
        Except.ok c9Env.child.stdoutStream ∧
      takeExpect child.stderr
        "Internal error: Failed to capture stderr from spawned process" =
        Except.ok c9Env.child.stderrStream :=
  snap_piped_handles_always_some "python3" "workspace_snap_agent.py"
    "/tmp/layout.json" none c9Env rfl

/-- C3: for every outcome of awaiting the child, the exit-waiter task
emits exactly one terminal notification: on a successful status a
single success notification carrying the status description; on a
non-zero status a single error notification whose text includes the
status, with no success notification; and on a wait failure a single
error notification whose text references the original command line. -/
theorem waitTask_single_terminal (w : Except String ExitStatus)
    (commandStr : String) :
    (waitTask w commandStr).length = 1 ∧
    (waitTask w commandStr).countP isTerminalEv = 1 ∧
    (∀ status, w = Except.ok status → status.success = true →
      waitTask w commandStr =
        [Event.success ("Agent exited successfully (Status: " ++
          status.display ++ ")")]) ∧
    (∀ status, w = Except.ok status → status.success = false →
      waitTask w commandStr =
        [Event.error ("Agent exited with non-zero status: " ++
          status.display)] ∧
      containsStr ("Agent exited with non-zero status: " ++ status.display)
        status.display ∧
      (waitTask w commandStr).countP isSuccessEv = 0) ∧
    (∀ e, w = Except.error e →
      waitTask w commandStr =
        [Event.error ("Failed to wait for Workspace Snap Agent process (" ++
          commandStr ++ "): " ++ e)] ∧
      containsStr
        ("Failed to wait for Workspace Snap Agent process (" ++
          commandStr ++ "): " ++ e) commandStr) := by
  refine ⟨?_, ?_, ?_, ?_, ?_⟩
  · cases w with
    | ok status => by_cases h : status.success <;> simp [waitTask, h]
    | error e => simp [waitTask]
  · cases w with
    | ok status =>
        by_cases h : status.success <;>
          simp [waitTask, h, isTerminalEv, isSuccessEv, isErrorEv]
    | error e => simp [waitTask, isTerminalEv, isSuccessEv, isErrorEv]
  · rintro status rfl h
    simp [waitTask, h]
  · rintro status rfl h
    refine ⟨by simp [waitTask, h], containsStr_append_right _ _, ?_⟩
    simp [waitTask, h, isSuccessEv]
  · rintro e rfl
    refine ⟨rfl, ?_⟩
    exact ⟨"Failed to wait for Workspace Snap Agent process (",
      "): " ++ e, by simp [String.append_assoc]⟩

theorem waitTask_single_terminal_witness :
    waitTask (Except.ok { success := false, display := "exit status: 2" })
      "python3 agent.py" =
      [Event.error "Agent exited with non-zero status: exit status: 2"] ∧
    containsStr "Agent exited with non-zero status: exit status: 2"
      "exit status: 2" := by
  have h := (waitTask_single_terminal
    (Except.ok { success := false, display := "exit status: 2" })
    "python3 agent.py").2.2.2.1
    { success := false, display := "exit status: 2" } rfl rfl
  exact ⟨h.1, h.2.1⟩

/-- C10: both stream-reading loops stop at the first read error exactly as
at end-of-stream: the lines before the error are the only ones
processed, every later line yields no notification, the stop is silent
(no error notification about the truncation — every emitted event is an
ordinary stderr-line notification), and the stdout reader's locally
logged lines are truncated the same way while it still emits nothing. -/
theorem reader_stops_at_first_error (pre : List String) (e : String)
    (post : List ReadItem) :
    (stderrTask (pre.map ReadItem.line ++ ReadItem.readErr e :: post)).2 =
      pre.map Event.stderrLine ∧
    (∀ ev ∈ (stderrTask (pre.map ReadItem.line ++
        ReadItem.readErr e :: post)).2, isStderrLineEv ev = true) ∧
    (stdoutTask (pre.map ReadItem.line ++ ReadItem.readErr e :: post)).1 =
      pre ∧
    (stdoutTask (pre.map ReadItem.line ++ ReadItem.readErr e :: post)).2 =
      [] := by
  have houtputs : readerOutputs
      (pre.map ReadItem.line ++ ReadItem.readErr e :: post) = pre := by
    induction pre with
    | nil => rfl
    | cons s rest ih => simpa [readerOutputs] using ih
  refine ⟨?_, ?_, ?_, rfl⟩
  · simp [stderrTask, houtputs]
  · intro ev hev
    simp [stderrTask, houtputs] at hev
    obtain ⟨s, -, rfl⟩ := hev
    rfl
  · simp [stdoutTask, houtputs]

/-! ## Interleaving lemmas

Whatever order the runtime schedules the stderr reader and the exit
waiter in, element counts add up, each task's own emission order is
preserved, and events a class contributes alone keep exactly that
task's order. -/

theorem interleavings_countP (p : α → Bool) (xs ys : List α) :
    ∀ t ∈ interleavings xs ys, t.countP p = xs.countP p + ys.countP p := by
  induction xs generalizing ys with
  | nil =>
      intro t ht
      rw [interleavings_nil] at ht
      simp at ht; subst ht; simp
  | cons x xs ihx =>
      induction ys with
      | nil =>
          intro t ht
          rw [interleavings_cons_nil] at ht
          simp at ht; subst ht; simp
      | cons y ys ihy =>
          intro t ht
          rw [interleavings_cons_cons] at ht
          simp only [List.mem_append, List.mem_map] at ht
          rcases ht with ⟨t', ht', rfl⟩ | ⟨t', ht', rfl⟩
          · have h := ihx (y :: ys) t' ht'
            by_cases hx : p x
            all_goals simp [hx, h]
            all_goals omega
          · have h := ihy t' ht'
            by_cases hy : p y
            all_goals simp [hy, h]
            all_goals omega

theorem interleavings_sublist_left (xs ys : List α) :
    ∀ t ∈ interleavings xs ys, xs.Sublist t := by
  induction xs generalizing ys with
  | nil =>
      intro t ht
      rw [interleavings_nil] at ht
      simp at ht; subst ht
      exact List.nil_sublist _
  | cons x xs ihx =>
      induction ys with
      | nil =>
          intro t ht
          rw [interleavings_cons_nil] at ht
          simp at ht; subst ht
          exact List.Sublist.refl _
      | cons y ys ihy =>
          intro t ht
          rw [interleavings_cons_cons] at ht
          simp only [List.mem_append, List.mem_map] at ht
          rcases ht with ⟨t', ht', rfl⟩ | ⟨t', ht', rfl⟩
          · exact (ihx (y :: ys) t' ht').cons₂ x
          · exact (ihy t' ht').cons y

theorem interleavings_filter_left (p : α → Bool) (xs ys t : List α)
    (ht : t ∈ interleavings xs ys) (hys : ys.countP p = 0) :
    t.filter p = xs.filter p := by
  have hsub : List.Sublist (xs.filter p) (t.filter p) :=
    (interleavings_sublist_left xs ys t ht).filter p
  have hlen : (xs.filter p).length = (t.filter p).length := by
    rw [← List.countP_eq_length_filter, ← List.countP_eq_length_filter,
      interleavings_countP p xs ys t ht, hys]
    omega
  exact (hsub.eq_of_length hlen).symm

/-- A predicate false on every stderr-line notification counts zero on the
stderr task's emissions. -/
theorem countP_map_stderrLine_zero (p : Event → Bool)
    (hp : ∀ s, p (Event.stderrLine s) = false) (l : List String) :
    (l.map Event.stderrLine).countP p = 0 := by
  rw [List.countP_eq_zero]
  intro e he
  obtain ⟨s, -, rfl⟩ := List.mem_map.mp he
  simp [hp]

theorem waitTask_countP_classes (w : Except String ExitStatus)
    (commandStr : String) :
    (waitTask w commandStr).countP isStartedEv = 0 ∧
    (waitTask w commandStr).countP isStderrLineEv = 0 := by
  cases w with
  | ok status =>
      by_cases h : status.success <;>
        simp [waitTask, h, isStartedEv, isStderrLineEv]
  | error e => simp [waitTask, isStartedEv, isStderrLineEv]

/-- The reader loop run on a complete, error-free stream processes every
line. -/
theorem readerOutputs_map_line (l : List String) :
    readerOutputs (l.map ReadItem.line) = l := by
  induction l with
  | nil => rfl
  | cons s rest ih => simpa [readerOutputs] using ih

/-! ## Unfolding equations for the supervisor -/

theorem superviseSnap_spawnErr (cmd : Cmd) (env : SpawnEnv) (e : String)
    (hspawn : env.spawnError = some e) :
    superviseSnap cmd env =
      (Except.error ("Failed to spawn Workspace Snap Agent command '" ++
        cmd.debugStr ++ "': " ++ e), [[]]) := by
  unfold superviseSnap Cmd.spawn
  rw [hspawn]

theorem superviseSnap_snapCmd_traces (pythonExecutable scriptPath
    configPath : String) (projectPath : Option String) (env : SpawnEnv)
    (hspawn : env.spawnError = none) :
    superviseSnap (buildSnapCmd pythonExecutable scriptPath configPath
        projectPath) env =
      (Except.ok (),
        (interleavings
          ((readerOutputs env.child.stderrStream).map Event.stderrLine)
          (waitTask env.child.waitResult
            (buildSnapCmd pythonExecutable scriptPath configPath
              projectPath).debugStr)).map
          (fun t =>
            Event.started ("Agent PID: " ++ pidString env.child.pid) :: t)) := by
  unfold superviseSnap Cmd.spawn
  rw [hspawn]
  cases projectPath <;> rfl

theorem trigger_ok_eq (env : TriggerEnv) (configPath : String)
    (projectPath : Option String) (scriptPath : String)
    (hres : resolve_script_path env.resolveEnv snapScriptName =
      Except.ok scriptPath) :
    trigger_workspace_snap env configPath projectPath =
      superviseSnap
        (buildSnapCmd (find_python env.pyEnv env.windows) scriptPath
          configPath projectPath) env.spawnEnv := by
  unfold trigger_workspace_snap
  rw [hres]

/-- C4: for every successful spawn, every event sequence the sink may
observe contains exactly one started notification and exactly one
terminal (success/error) notification, and begins with the started
notification — it is emitted before any stderr-line or terminal
notification. -/
theorem snap_started_first_single_terminal (env : TriggerEnv)
    (configPath : String) (projectPath : Option String)
    (scriptPath : String)
    (hres : resolve_script_path env.resolveEnv snapScriptName =
      Except.ok scriptPath)
    (hspawn : env.spawnEnv.spawnError = none) :
    (trigger_workspace_snap env configPath projectPath).1 = Except.ok () ∧
    ∀ t ∈ (trigger_workspace_snap env configPath projectPath).2,
      t.countP isStartedEv = 1 ∧
      t.countP isTerminalEv = 1 ∧
      ∃ s rest, t = Event.started s :: rest := by
  rw [trigger_ok_eq env configPath projectPath scriptPath hres,
    superviseSnap_snapCmd_traces _ _ _ _ _ hspawn]
  refine ⟨rfl, ?_⟩
  intro t ht
  simp only [List.mem_map] at ht
  obtain ⟨t', ht', rfl⟩ := ht
  have hcount := fun p => interleavings_countP p _ _ t' ht'
  have hA1 : ((readerOutputs env.spawnEnv.child.stderrStream).map
      Event.stderrLine).countP isStartedEv = 0 :=
    countP_map_stderrLine_zero _ (fun s => rfl) _
  have hA2 : ((readerOutputs env.spawnEnv.child.stderrStream).map
      Event.stderrLine).countP isTerminalEv = 0 :=
    countP_map_stderrLine_zero _ (fun s => rfl) _
  have hB1 := (waitTask_countP_classes env.spawnEnv.child.waitResult
    (buildSnapCmd (find_python env.pyEnv env.windows) scriptPath configPath
      projectPath).debugStr).1
  have hB2 := (waitTask_single_terminal env.spawnEnv.child.waitResult
    (buildSnapCmd (find_python env.pyEnv env.windows) scriptPath configPath
      projectPath).debugStr).2.1
  refine ⟨?_, ?_, _, t', rfl⟩
  · rw [List.countP_cons_of_pos _ _ (by rfl), hcount isStartedEv, hA1, hB1]
  · rw [List.countP_cons_of_neg _ _ (by simp [isTerminalEv, isSuccessEv,
      isErrorEv]), hcount isTerminalEv, hA2, hB2]

/-- Environment for the C4 witness: everything succeeds, one clean exit. -/
def c4Env : TriggerEnv where
  pyEnv := { launch := fun _ => some 0 }
  windows := false
  resolveEnv :=
    { resourceResolve := Except.error "no resource dir"
      exeDir := none
      fsExists := fun s => s == snapScriptName }
  spawnEnv :=
    { spawnError := none
      child :=
        { pid := some 7
          stdoutStream := []
          stderrStream := []
          waitResult :=
            Except.ok { success := true, display := "exit status: 0" } } }

theorem snap_started_first_single_terminal_witness :
    (trigger_workspace_snap c4Env "/tmp/layout.json" none).1 =
      Except.ok () ∧
    ∀ t ∈ (trigger_workspace_snap c4Env "/tmp/layout.json" none).2,
      t.countP isStartedEv = 1 ∧
      t.countP isTerminalEv = 1 ∧
      ∃ s rest, t = Event.started s :: rest :=
  snap_started_first_single_terminal c4Env "/tmp/layout.json" none
    snapScriptName rfl rfl

/-- C7: when the spawn call itself fails, `trigger_workspace_snap` returns
a synchronous error whose text includes the full command line, and the
sink can observe no notification at all for the attempt. -/
theorem snap_spawn_failure_sync_error (env : TriggerEnv)
    (configPath : String) (projectPath : Option String)
    (scriptPath e : String)
    (hres : resolve_script_path env.resolveEnv snapScriptName =
      Except.ok scriptPath)
    (hspawn : env.spawnEnv.spawnError = some e) :
    (trigger_workspace_snap env configPath projectPath).1 =
      Except.error ("Failed to spawn Workspace Snap Agent command '" ++
        (buildSnapCmd (find_python env.pyEnv env.windows) scriptPath
          configPath projectPath).debugStr ++ "': " ++ e) ∧
    containsStr
      ("Failed to spawn Workspace Snap Agent command '" ++
        (buildSnapCmd (find_python env.pyEnv env.windows) scriptPath
          configPath projectPath).debugStr ++ "': " ++ e)
      (buildSnapCmd (find_python env.pyEnv env.windows) scriptPath
        configPath projectPath).debugStr ∧
    (trigger_workspace_snap env configPath projectPath).2 = [[]] := by
  rw [trigger_ok_eq env configPath projectPath scriptPath hres,
    superviseSnap_spawnErr _ _ e hspawn]
  exact ⟨rfl,
    ⟨"Failed to spawn Workspace Snap Agent command '", "': " ++ e,
      by simp [String.append_assoc]⟩, rfl⟩

/-- Environment for the C7 witness: resolution succeeds but the OS refuses
the spawn. -/
def c7Env : TriggerEnv where
  pyEnv := { launch := fun _ => none }
  windows := false
  resolveEnv :=
    { resourceResolve := Except.error "no resource dir"
      exeDir := none
      fsExists := fun s => s == snapScriptName }
  spawnEnv :=
    { spawnError := some "No such file or directory (os error 2)"
      child :=
        { pid := none
          stdoutStream := []
          stderrStream := []
          waitResult := Except.error "never spawned" } }

theorem snap_spawn_failure_sync_error_witness :
    (trigger_workspace_snap c7Env "/tmp/layout.json" none).1 =
      Except.error ("Failed to spawn Workspace Snap Agent command '" ++
        (buildSnapCmd "python" snapScriptName "/tmp/layout.json"
          none).debugStr ++
        "': No such file or directory (os error 2)") ∧
    (trigger_workspace_snap c7Env "/tmp/layout.json" none).2 = [[]] := by
  have h := snap_spawn_failure_sync_error c7Env "/tmp/layout.json" none
    snapScriptName "No such file or directory (os error 2)"
    rfl rfl
  exact ⟨h.1, h.2.2⟩

/-- `env` with the child's raw stdout contents replaced — used to state
that nothing the sink observes depends on stdout. -/
def setStdoutStream (env : TriggerEnv) (s : List ReadItem) : TriggerEnv :=
  { env with
      spawnEnv :=
        { env.spawnEnv with
            child := { env.spawnEnv.child with stdoutStream := s } } }

/-- C8 (amended): for a child that writes its stderr lines without a read
error and exits successfully, every event sequence the sink may observe
delivers exactly the N stderr lines, one notification per line and in
the child's write order, together with exactly one success notification
and no error notification; the observable sequences are independent of
the child's stdout contents (stdout is consumed but never forwarded).
The ordering between the stderr-line notifications and the success
notification is NOT guaranteed: the reader and the waiter are
independent tasks (see the C8 counterexample). -/
theorem snap_stderr_exact_delivery (env : TriggerEnv) (configPath : String)
    (projectPath : Option String) (scriptPath : String)
    (lines : List String) (status : ExitStatus)
    (hres : resolve_script_path env.resolveEnv snapScriptName =
      Except.ok scriptPath)
    (hspawn : env.spawnEnv.spawnError = none)
    (hstream : env.spawnEnv.child.stderrStream = lines.map ReadItem.line)
    (hwait : env.spawnEnv.child.waitResult = Except.ok status)
    (hsucc : status.success = true) :
    (∀ t ∈ (trigger_workspace_snap env configPath projectPath).2,
      t.filter isStderrLineEv = lines.map Event.stderrLine ∧
      t.countP isSuccessEv = 1 ∧
      t.countP isErrorEv = 0) ∧
    (∀ s, (trigger_workspace_snap (setStdoutStream env s) configPath
        projectPath).2 =
      (trigger_workspace_snap env configPath projectPath).2) := by
  constructor
  · rw [trigger_ok_eq env configPath projectPath scriptPath hres,
      superviseSnap_snapCmd_traces _ _ _ _ _ hspawn]
    intro t ht
    simp only [List.mem_map] at ht
    obtain ⟨t', ht', rfl⟩ := ht
    rw [hstream, readerOutputs_map_line, hwait] at ht'
    have hwaitEvs : waitTask (Except.ok status)
        (buildSnapCmd (find_python env.pyEnv env.windows) scriptPath
          configPath projectPath).debugStr =
        [Event.success ("Agent exited successfully (Status: " ++
          status.display ++ ")")] := by
      simp [waitTask, hsucc]
    rw [hwaitEvs] at ht'
    refine ⟨?_, ?_, ?_⟩
    · rw [List.filter_cons_of_neg (by simp [isStderrLineEv]),
        interleavings_filter_left isStderrLineEv _ _ t' ht' (by
          simp [isStderrLineEv]),
        List.filter_eq_self.mpr]
      intro e he
      obtain ⟨s, -, rfl⟩ := List.mem_map.mp he
      rfl
    · rw [List.countP_cons_of_neg _ _ (by simp [isSuccessEv]),
        interleavings_countP isSuccessEv _ _ t' ht',
        countP_map_stderrLine_zero _ (fun s => rfl)]
      simp [isSuccessEv]
    · rw [List.countP_cons_of_neg _ _ (by simp [isErrorEv]),
        interleavings_countP isErrorEv _ _ t' ht',
        countP_map_stderrLine_zero _ (fun s => rfl)]
      simp [isErrorEv]
  · intro s
    rw [trigger_ok_eq env configPath projectPath scriptPath hres,
      trigger_ok_eq (setStdoutStream env s) configPath projectPath
        scriptPath hres,
      superviseSnap_snapCmd_traces _ _ _ _ _ hspawn,
      superviseSnap_snapCmd_traces _ _ _ _ _
        (show (setStdoutStream env s).spawnEnv.spawnError = none from
          hspawn)]
    rfl

/-- Environment for the C8 witness and counterexample: one stderr line
`"boom"`, then a clean exit. -/
def c8Env : TriggerEnv where
  pyEnv := { launch := fun _ => some 0 }
  windows := false
  resolveEnv :=
    { resourceResolve := Except.error "no resource dir"
      exeDir := none
      fsExists := fun s => s == snapScriptName }
  spawnEnv :=
    { spawnError := none
      child :=
        { pid := some 7
          stdoutStream := []
          stderrStream := [ReadItem.line "boom"]
          waitResult :=
            Except.ok { success := true, display := "exit status: 0" } } }

theorem snap_stderr_exact_delivery_witness :
    [Event.started "Agent PID: 7", Event.stderrLine "boom",
      Event.success
        "Agent exited successfully (Status: exit status: 0)"].filter
      isStderrLineEv = ["boom"].map Event.stderrLine ∧
    [Event.started "Agent PID: 7", Event.stderrLine "boom",
      Event.success
        "Agent exited successfully (Status: exit status: 0)"].countP
      isSuccessEv = 1 ∧
    [Event.started "Agent PID: 7", Event.stderrLine "boom",
      Event.success
        "Agent exited successfully (Status: exit status: 0)"].countP
      isErrorEv = 0 ∧
    (trigger_workspace_snap (setStdoutStream c8Env [ReadItem.line "junk"])
      "/tmp/layout.json" none).2 =
      (trigger_workspace_snap c8Env "/tmp/layout.json" none).2 := by
  have h := snap_stderr_exact_delivery c8Env "/tmp/layout.json" none
    snapScriptName ["boom"] { success := true, display := "exit status: 0" }
    rfl rfl rfl rfl rfl
  have hm := h.1 [Event.started "Agent PID: 7", Event.stderrLine "boom",
    Event.success "Agent exited successfully (Status: exit status: 0)"]
    (by decide)
  exact ⟨hm.1, hm.2.1, hm.2.2, h.2 [ReadItem.line "junk"]⟩

/-- Does a stderr-line notification occur after a success notification? -/
def hasLineAfterSuccessEv : List Event → Bool
  | [] => false
  | Event.success _ :: rest =>
      rest.any isStderrLineEv || hasLineAfterSuccessEv rest
  | _ :: rest => hasLineAfterSuccessEv rest

/-- C8 counterexample: for a child that writes one stderr line and exits
successfully, the sink may observe the success notification BEFORE the
stderr-line notification — the concurrently scheduled exit waiter gives
no guarantee that the N stderr lines are "eventually followed by" the
success notification, contrary to the claim's ordering. -/
theorem snap_success_before_stderr_counterexample :
    [Event.started "Agent PID: 7",
     Event.success "Agent exited successfully (Status: exit status: 0)",
     Event.stderrLine "boom"] ∈
      (trigger_workspace_snap c8Env "/tmp/layout.json" none).2 ∧
    hasLineAfterSuccessEv
      [Event.started "Agent PID: 7",
       Event.success "Agent exited successfully (Status: exit status: 0)",
       Event.stderrLine "boom"] = true := by
  have htr : (trigger_workspace_snap c8Env "/tmp/layout.json" none).2 =
      [[Event.started "Agent PID: 7", Event.stderrLine "boom",
        Event.success "Agent exited successfully (Status: exit status: 0)"],
       [Event.started "Agent PID: 7",
        Event.success "Agent exited successfully (Status: exit status: 0)",
        Event.stderrLine "boom"]] := by decide
  rw [htr]
  exact ⟨by simp, rfl⟩

end LocalDashboard
